import Mathlib

/-!
Verification of the sensor-data adapter in `graph_weather/data/nnja_ai.py`.

The source file defines a PyTorch `Dataset` subclass `SensorDataset` and a
`collate_fn` batching helper.  This development is a shallow embedding of
that code:

* Numeric payloads (floats, pandas timestamps) are modelled opaquely as `Int`;
  the code performs no arithmetic on them, it only moves them between
  containers, so only identity of values matters.  The conversions
  `Timestamp.timestamp()`, `torch.tensor(x, dtype=torch.float32)` and
  `torch.from_numpy` are value-preserving in this model.
* The external `nnja` catalog pipeline (`DataCatalog`, `catalog[name]`,
  `load_manifest`, `sel`, `load_dataset`) is modelled as an abstract function
  from query parameters to a materialized tabular collection (`DataFrame`),
  with the individual external calls logged as an `Effect` trace.
* Exceptions become `Except`/`Option` results.
-/

set_option autoImplicit false

namespace NnjaAI

/-- Opaque numeric payload (float / timestamp values are only moved, never
computed with). -/
abbrev Value := Int

/-- One materialized row, indexed by column name (a pandas row accessed by
label).  Lookup of an absent label raises, modelled by `Option`. -/
abbrev Row := List (String × Value)

/-- `row[col]` on a pandas Series: first entry with the given label. -/
def rowGet (row : Row) (col : String) : Option Value :=
  (row.find? (fun p => p.1 == col)).map Prod.snd

/-- The materialized tabular collection produced by
`dataset.load_dataset(engine="pandas")`: an ordered column list plus rows. -/
structure DataFrame where
  columns : List String
  rows : List Row
deriving Repr, DecidableEq

/-- The external catalog pipeline, abstracted: dataset name, time filter and
selected variable list determine the materialized collection. -/
abbrev Catalog := String → String → List String → DataFrame

/-- External calls made through the nnja catalog library. -/
inductive Effect where
  | dataCatalogInit
  | catalogLookup (dataset_name : String)
  | loadManifest
  | selQuery (time : String) (selected : List String)
  | loadDataset
deriving Repr, DecidableEq

/-- A torch tensor: a shape together with the flattened element data.  The
code builds scalar tensors (`torch.tensor(x)`, shape `[]`), 1-D tensors
(`torch.from_numpy`, shape `[n]`), and `torch.stack` results (one extra
leading dimension). -/
structure Tensor where
  shape : List Nat
  data : List Value
deriving Repr, DecidableEq

/-- `torch.tensor(x, dtype=torch.float32)` for a scalar `x`. -/
def Tensor.scalar (v : Value) : Tensor := ⟨[], [v]⟩

/-- `torch.from_numpy` of the 1-D metadata array. -/
def Tensor.vector (vs : List Value) : Tensor := ⟨[vs.length], vs⟩

/-- `torch.stack`: fails on an empty list or on tensors of unequal shapes,
otherwise adds a leading dimension of size `ts.length`, concatenating the
element data in list order. -/
def torchStack (ts : List Tensor) : Option Tensor :=
  match ts with
  | [] => none
  | t :: rest =>
      if rest.all (fun u => u.shape == t.shape) then
        some ⟨(t :: rest).length :: t.shape, ((t :: rest).map Tensor.data).flatten⟩
      else none

/-- A Python dict with string keys, as returned by `__getitem__` and
`collate_fn`. -/
abbrev Dict := List (String × Tensor)

/-- `d[key]` on a dict: `Option`-valued since a missing key raises. -/
def dictGet (d : Dict) (key : String) : Option Tensor :=
  (d.find? (fun p => p.1 == key)).map Prod.snd

/-- A sequential comprehension `[f x for x in xs]` that raises on the first
failing element. -/
def mapOption {α β : Type} (f : α → Option β) : List α → Option (List β)
  | [] => some []
  | x :: xs =>
      match f x with
      | none => none
      | some y =>
          match mapOption f xs with
          | none => none
          | some ys => some (y :: ys)

/-- Left-pad with zeros: `f"{n:02d}"` / `str(n).zfill(5)`. -/
def zfill (width : Nat) (n : Nat) : String :=
  let s := toString n
  String.mk (List.replicate (width - s.length) '0') ++ s

/-- The per-sensor channel variable lists built in `SensorDataset.__init__`
(`none` for an unsupported sensor type, which raises `ValueError`). -/
def channelVariables (sensor_type : String) : Option (List String) :=
  if sensor_type == "AMSU" then
    some ((List.range 15).map (fun i => "TMBR_000" ++ zfill 2 (i + 1)))
  else if sensor_type == "ATMS" then
    some ((List.range 22).map (fun i => "TMBR_000" ++ zfill 2 (i + 1)))
  else if sensor_type == "MHS" then
    some ((List.range 5).map (fun i => "TMBR_000" ++ zfill 2 (i + 1)))
  else if sensor_type == "IASI" then
    some ((List.range 616).map (fun i => "SCRA_" ++ zfill 5 (i + 1)))
  else if sensor_type == "CrIS" then
    some ((List.range 431).map (fun i => "SRAD01_" ++ zfill 5 (i + 1)))
  else
    none

/-- The adapter state held by a constructed `SensorDataset` instance.  The
external handle objects (`self.catalog`, `self.dataset`) are represented by
the query parameters and the materialized `dataframe`. -/
structure SensorDataset where
  dataset_name : String
  time : String
  primary_descriptors : List String
  additional_variables : List String
  sensor_type : String
  dataframe : DataFrame
  metadata_columns : List String
deriving Repr, DecidableEq

/-- `SensorDataset.__init__`: builds the catalog query eagerly, validates the
sensor type and the presence of every primary descriptor column, and stores
the materialized collection and the metadata column list.  Returns the
constructed adapter (or the raised error) along with the trace of external
catalog calls. -/
def SensorDataset.init (catalog : Catalog) (dataset_name time : String)
    (primary_descriptors additional_variables : List String)
    (sensor_type : String) :
    Except String SensorDataset × List Effect :=
  let pre := [Effect.dataCatalogInit, Effect.catalogLookup dataset_name,
              Effect.loadManifest]
  match channelVariables sensor_type with
  | none => (Except.error ("Unsupported sensor type: " ++ sensor_type), pre)
  | some chans =>
      let selected := primary_descriptors ++ chans
      let dataframe := catalog dataset_name time selected
      let post := pre ++ [Effect.selQuery time selected, Effect.loadDataset]
      match primary_descriptors.find? (fun col => !(dataframe.columns.contains col)) with
      | some col =>
          (Except.error ("The dataset must include a " ++ col ++ " column."), post)
      | none =>
          (Except.ok
            { dataset_name := dataset_name
              time := time
              primary_descriptors := primary_descriptors
              additional_variables := additional_variables
              sensor_type := sensor_type
              dataframe := dataframe
              metadata_columns :=
                dataframe.columns.filter
                  (fun col => !(primary_descriptors.contains col)) },
           post)

/-- `SensorDataset.__len__` in state-passing form: reads `self.dataframe`,
assigns nothing, performs no external call. -/
def SensorDataset.runLen (self : SensorDataset) :
    Nat × SensorDataset × List Effect :=
  (self.dataframe.rows.length, self, [])

/-- `len(adapter)`. -/
def SensorDataset.len (self : SensorDataset) : Nat :=
  (self.runLen).1

/-- `SensorDataset.__getitem__` in state-passing form: looks up the row at
`index`, reads the three hard-coded columns `OBS_TIMESTAMP`, `LAT`, `LON`,
packs the values of `self.metadata_columns` into a vector, and returns the
sample dict.  No field of `self` is assigned and no external catalog call is
made. -/
def SensorDataset.runGetItem (self : SensorDataset) (index : Nat) :
    Option Dict × SensorDataset × List Effect :=
  match self.dataframe.rows[index]? with
  | none => (none, self, [])
  | some row =>
      match rowGet row "OBS_TIMESTAMP" with
      | none => (none, self, [])
      | some t =>
          match rowGet row "LAT" with
          | none => (none, self, [])
          | some latitude =>
              match rowGet row "LON" with
              | none => (none, self, [])
              | some longitude =>
                  match mapOption (rowGet row) self.metadata_columns with
                  | none => (none, self, [])
                  | some metadata =>
                      (some [("timestamp", Tensor.scalar t),
                             ("latitude", Tensor.scalar latitude),
                             ("longitude", Tensor.scalar longitude),
                             ("metadata", Tensor.vector metadata)],
                       self, [])

/-- `adapter[index]`: the sample produced by `__getitem__`. -/
def SensorDataset.getItem (self : SensorDataset) (index : Nat) : Option Dict :=
  (self.runGetItem index).1

/-- `collate_fn`: `{key: torch.stack([item[key] for item in batch]) for key in
batch[0].keys()}`.  `batch[0]` on an empty list raises `IndexError`; a missing
key on a later item raises `KeyError`; `torch.stack` raises on unequal
shapes — all modelled by `none`. -/
def collate_fn (batch : List Dict) : Option Dict :=
  match batch with
  | [] => none
  | first :: rest =>
      mapOption
        (fun key =>
          match mapOption (fun item => dictGet item key) (first :: rest) with
          | none => none
          | some vs =>
              match torchStack vs with
              | none => none
              | some t => some (key, t))
        (first.map Prod.fst)

/-! ### Concrete instances used to exercise the definitions -/

/-- Fallback adapter value used only in `match` fallbacks of the concrete
examples below. -/
def emptyDS : SensorDataset :=
  ⟨"", "", [], [], "", ⟨[], []⟩, []⟩

/-- A catalog whose materialized collection has exactly the selected columns
and a single row assigning `0` to every selected column. -/
def exCatalog : Catalog :=
  fun _ _ selected => ⟨selected, [selected.map (fun c => (c, (0 : Value)))]⟩

/-- The usual primary descriptor configuration. -/
def exPrimary : List String := ["OBS_TIMESTAMP", "LAT", "LON"]

/-- An adapter built over `exCatalog` for sensor type AMSU. -/
def exDS : SensorDataset :=
  match (SensorDataset.init exCatalog "amsu-1bamua" "2021-01-01" exPrimary [] "AMSU").1 with
  | Except.ok ds => ds
  | Except.error _ => emptyDS

/-- The sample at index 0 of `exDS`. -/
def exSample : Dict :=
  match exDS.getItem 0 with
  | some s => s
  | none => []

/-- The row at index 0 of `exDS`. -/
def exRow : Row :=
  match exDS.dataframe.rows[0]? with
  | some r => r
  | none => []

/-- A primary descriptor list that overlaps an AMSU channel column. -/
def cxPrimary : List String := ["OBS_TIMESTAMP", "LAT", "LON", "TMBR_00001"]

/-- An adapter whose primary descriptors overlap a channel column. -/
def cxDS : SensorDataset :=
  match (SensorDataset.init exCatalog "amsu-1bamua" "2021-01-01" cxPrimary [] "AMSU").1 with
  | Except.ok ds => ds
  | Except.error _ => emptyDS

/-- The sample at index 0 of `cxDS`. -/
def cxSample : Dict :=
  match cxDS.getItem 0 with
  | some s => s
  | none => []

/-- An adapter whose primary descriptors do not mention `OBS_TIMESTAMP`:
construction succeeds, yet every indexed access fails. -/
def c9DS : SensorDataset :=
  match (SensorDataset.init exCatalog "mhs" "2021-01-01" ["LAT", "LON"] [] "MHS").1 with
  | Except.ok ds => ds
  | Except.error _ => emptyDS

/-- A catalog that drops the `LAT` column from its materialized collection. -/
def noLatCatalog : Catalog :=
  fun _ _ selected => ⟨selected.filter (fun c => c != "LAT"), []⟩

/-- A batch whose two samples share the field name `metadata` but carry
vectors of different lengths. -/
def c3BadBatch : List Dict :=
  [[("metadata", Tensor.vector [0])], [("metadata", Tensor.vector [0, 0])]]

/-- First sample of a well-formed two-sample batch. -/
def c3First : Dict :=
  [("timestamp", Tensor.scalar 1), ("metadata", Tensor.vector [10, 11])]

/-- Second sample of a well-formed two-sample batch. -/
def c3Second : Dict :=
  [("timestamp", Tensor.scalar 2), ("metadata", Tensor.vector [20, 21])]

/-- The tensor `collate_fn` stores under field `k` (default tensor when the
stack fails); used to name the stacker's output record. -/
def stackedField (batch : List Dict) (k : String) : Tensor :=
  ((mapOption (fun item => dictGet item k) batch).bind torchStack).getD ⟨[], []⟩

/-! ### Helper lemmas -/

theorem mapOption_forall2 {α β : Type} {f : α → Option β} :
    ∀ {xs : List α} {ys : List β}, mapOption f xs = some ys →
      List.Forall₂ (fun x y => f x = some y) xs ys := by
  intro xs
  induction xs with
  | nil =>
      intro ys h
      simp only [mapOption, Option.some.injEq] at h
      subst h
      exact List.Forall₂.nil
  | cons x xs ih =>
      intro ys h
      simp only [mapOption] at h
      cases hfx : f x with
      | none => rw [hfx] at h; cases h
      | some y =>
          rw [hfx] at h
          cases hrec : mapOption f xs with
          | none => rw [hrec] at h; cases h
          | some ys2 =>
              rw [hrec] at h
              cases h
              exact List.Forall₂.cons hfx (ih hrec)

theorem mapOption_length {α β : Type} {f : α → Option β} {xs : List α}
    {ys : List β} (h : mapOption f xs = some ys) : ys.length = xs.length :=
  (mapOption_forall2 h).length_eq.symm

theorem mapOption_eq_map {α β : Type} {f : α → Option β} {g : α → β} :
    ∀ {xs : List α}, (∀ x ∈ xs, f x = some (g x)) →
      mapOption f xs = some (xs.map g) := by
  intro xs
  induction xs with
  | nil => intro _; rfl
  | cons x xs ih =>
      intro h
      have hx : f x = some (g x) := h x (List.mem_cons_self x xs)
      have hrec := ih (fun a ha => h a (List.mem_cons_of_mem x ha))
      simp only [mapOption, hx, hrec, List.map_cons]

theorem mapOption_exists {α β : Type} {f : α → Option β} :
    ∀ {xs : List α}, (∀ x ∈ xs, ∃ y, f x = some y) →
      ∃ ys, mapOption f xs = some ys := by
  intro xs
  induction xs with
  | nil => intro _; exact ⟨[], rfl⟩
  | cons x xs ih =>
      intro h
      obtain ⟨y, hy⟩ := h x (List.mem_cons_self x xs)
      obtain ⟨ys, hys⟩ := ih (fun a ha => h a (List.mem_cons_of_mem x ha))
      exact ⟨y :: ys, by simp only [mapOption, hy, hys]⟩

theorem dictGet_of_mem_keys {d : Dict} {k : String}
    (h : k ∈ d.map Prod.fst) : ∃ t, dictGet d k = some t := by
  induction d with
  | nil => simp at h
  | cons p d ih =>
      by_cases hk : p.1 = k
      · exact ⟨p.2, by simp [dictGet, List.find?, hk]⟩
      · have hk2 : (p.1 == k) = false := beq_eq_false_iff_ne.mpr hk
        have hmem : k ∈ d.map Prod.fst := by
          rcases List.mem_map.mp h with ⟨q, hq, hq2⟩
          rcases List.mem_cons.mp hq with rfl | hq3
          · exact absurd hq2 hk
          · exact List.mem_map.mpr ⟨q, hq3, hq2⟩
        obtain ⟨t, ht⟩ := ih hmem
        exact ⟨t, by simpa [dictGet, List.find?, hk2] using ht⟩

theorem dictGet_map_pair {h : String → Tensor} {k : String} :
    ∀ {keys : List String}, k ∈ keys →
      dictGet (keys.map (fun k2 => (k2, h k2))) k = some (h k) := by
  intro keys
  induction keys with
  | nil => intro hk; simp at hk
  | cons k2 keys ih =>
      intro hk
      by_cases he : k2 = k
      · subst he
        simp [dictGet, List.find?]
      · have he2 : (k2 == k) = false := beq_eq_false_iff_ne.mpr he
        have hmem : k ∈ keys := by
          rcases List.mem_cons.mp hk with rfl | hk2
          · exact absurd rfl he
          · exact hk2
        simpa [dictGet, List.find?, he2] using ih hmem

theorem runGetItem_state (self : SensorDataset) (index : Nat) :
    (self.runGetItem index).2 = (self, []) := by
  unfold SensorDataset.runGetItem
  repeat' split
  all_goals rfl

theorem getItem_eq (self : SensorDataset) (index : Nat) :
    self.getItem index =
      (self.dataframe.rows[index]?).bind (fun row =>
        (rowGet row "OBS_TIMESTAMP").bind (fun t =>
          (rowGet row "LAT").bind (fun latitude =>
            (rowGet row "LON").bind (fun longitude =>
              (mapOption (rowGet row) self.metadata_columns).map (fun metadata =>
                [("timestamp", Tensor.scalar t),
                 ("latitude", Tensor.scalar latitude),
                 ("longitude", Tensor.scalar longitude),
                 ("metadata", Tensor.vector metadata)]))))) := by
  unfold SensorDataset.getItem SensorDataset.runGetItem
  repeat' split
  all_goals simp_all [List.getElem?_eq_none]

theorem getItem_eq_some_iff (self : SensorDataset) (index : Nat) (sample : Dict) :
    self.getItem index = some sample ↔
    ∃ row t la lo md,
      self.dataframe.rows[index]? = some row ∧
      rowGet row "OBS_TIMESTAMP" = some t ∧
      rowGet row "LAT" = some la ∧
      rowGet row "LON" = some lo ∧
      mapOption (rowGet row) self.metadata_columns = some md ∧
      sample = [("timestamp", Tensor.scalar t), ("latitude", Tensor.scalar la),
                ("longitude", Tensor.scalar lo), ("metadata", Tensor.vector md)] := by
  rw [getItem_eq]
  constructor
  · intro h
    rcases Option.bind_eq_some.mp h with ⟨row, h1, h⟩
    rcases Option.bind_eq_some.mp h with ⟨t, h2, h⟩
    rcases Option.bind_eq_some.mp h with ⟨la, h3, h⟩
    rcases Option.bind_eq_some.mp h with ⟨lo, h4, h⟩
    rcases Option.map_eq_some'.mp h with ⟨md, h5, h6⟩
    exact ⟨row, t, la, lo, md, h1, h2, h3, h4, h5, h6.symm⟩
  · rintro ⟨row, t, la, lo, md, h1, h2, h3, h4, h5, rfl⟩
    simp [h1, h2, h3, h4, h5]

theorem init_ok_destruct (catalog : Catalog) (dataset_name time : String)
    (prim add : List String) (sensor_type : String) (ds : SensorDataset)
    (h : (SensorDataset.init catalog dataset_name time prim add sensor_type).1 =
      Except.ok ds) :
    ∃ chans, channelVariables sensor_type = some chans ∧
      (∀ col ∈ prim,
        (catalog dataset_name time (prim ++ chans)).columns.contains col = true) ∧
      ds = { dataset_name := dataset_name
             time := time
             primary_descriptors := prim
             additional_variables := add
             sensor_type := sensor_type
             dataframe := catalog dataset_name time (prim ++ chans)
             metadata_columns :=
               (catalog dataset_name time (prim ++ chans)).columns.filter
                 (fun col => !(prim.contains col)) } := by
  unfold SensorDataset.init at h
  cases hcv : channelVariables sensor_type with
  | none => rw [hcv] at h; cases h
  | some chans =>
      rw [hcv] at h
      simp only at h
      cases hf : prim.find?
          (fun col => !((catalog dataset_name time (prim ++ chans)).columns.contains col)) with
      | some col => rw [hf] at h; cases h
      | none =>
          rw [hf] at h
          cases h
          refine ⟨chans, rfl, ?_, rfl⟩
          intro col hcol
          have := List.find?_eq_none.mp hf col hcol
          simpa using this

theorem init_effects (catalog : Catalog) (dataset_name time : String)
    (prim add : List String) (sensor_type : String) (chans : List String)
    (hchans : channelVariables sensor_type = some chans) :
    (SensorDataset.init catalog dataset_name time prim add sensor_type).2 =
      [Effect.dataCatalogInit, Effect.catalogLookup dataset_name,
       Effect.loadManifest, Effect.selQuery time (prim ++ chans),
       Effect.loadDataset] := by
  unfold SensorDataset.init
  rw [hchans]
  simp only
  cases prim.find?
      (fun col => !((catalog dataset_name time (prim ++ chans)).columns.contains col)) with
  | none => rfl
  | some col => rfl

theorem getItem_ignores_primary (ds : SensorDataset) (p2 : List String)
    (index : Nat) :
    SensorDataset.getItem { ds with primary_descriptors := p2 } index =
      ds.getItem index := by
  simp only [getItem_eq]

theorem filter_not_mem_append (prim chans : List String)
    (hdisj : ∀ col ∈ chans, col ∉ prim) :
    (prim ++ chans).filter (fun col => !(prim.contains col)) = chans := by
  rw [List.filter_append]
  have h1 : prim.filter (fun col => !(prim.contains col)) = [] := by
    rw [List.filter_eq_nil_iff]
    intro a ha
    simp [ha]
  have h2 : chans.filter (fun col => !(prim.contains col)) = chans := by
    rw [List.filter_eq_self]
    intro a ha
    simp [hdisj a ha]
  rw [h1, h2, List.nil_append]

theorem forall2_mem_right {α β : Type} {R : α → β → Prop} {xs : List α}
    {ys : List β} (h : List.Forall₂ R xs ys) :
    ∀ y ∈ ys, ∃ x, x ∈ xs ∧ R x y := by
  induction h with
  | nil => intro y hy; simp at hy
  | cons h1 h2 ih =>
      intro y hy
      rcases List.mem_cons.mp hy with rfl | hy2
      · exact ⟨_, List.mem_cons_self _ _, h1⟩
      · obtain ⟨x, hx, hR⟩ := ih y hy2
        exact ⟨x, List.mem_cons_of_mem _ hx, hR⟩

/-! ### Claim theorems -/

/-- C4: for every constructed adapter, the length operation returns exactly
the row count of the filtered and materialized collection held by the adapter
(the collection returned by the catalog query made at construction). -/
theorem len_eq_row_count (catalog : Catalog) (dataset_name time : String)
    (prim add : List String) (sensor_type : String) (ds : SensorDataset)
    (hds : (SensorDataset.init catalog dataset_name time prim add sensor_type).1 =
      Except.ok ds) :
    ds.len = ds.dataframe.rows.length ∧
    ∃ chans, channelVariables sensor_type = some chans ∧
      ds.dataframe = catalog dataset_name time (prim ++ chans) := by
  obtain ⟨chans, hchans, _, hdseq⟩ :=
    init_ok_destruct catalog dataset_name time prim add sensor_type ds hds
  subst hdseq
  exact ⟨rfl, chans, hchans, rfl⟩

/-- Witness for C4 at a concrete adapter. -/
theorem len_eq_row_count_witness :
    exDS.len = exDS.dataframe.rows.length ∧
    ∃ chans, channelVariables "AMSU" = some chans ∧
      exDS.dataframe = exCatalog "amsu-1bamua" "2021-01-01" (exPrimary ++ chans) :=
  len_eq_row_count exCatalog "amsu-1bamua" "2021-01-01" exPrimary [] "AMSU" exDS rfl

/-- C5: constructing with a sensor type outside {AMSU, ATMS, MHS, IASI, CrIS}
raises the unsupported-sensor configuration error and never yields a
(partially) constructed adapter. -/
theorem init_unsupported_sensor_errors (catalog : Catalog)
    (dataset_name time : String) (prim add : List String) (sensor_type : String)
    (hs : sensor_type ∉ ["AMSU", "ATMS", "MHS", "IASI", "CrIS"]) :
    (SensorDataset.init catalog dataset_name time prim add sensor_type).1 =
      Except.error ("Unsupported sensor type: " ++ sensor_type) ∧
    ∀ ds : SensorDataset,
      (SensorDataset.init catalog dataset_name time prim add sensor_type).1 ≠
        Except.ok ds := by
  have h1 : sensor_type ≠ "AMSU" := fun h => hs (by simp [h])
  have h2 : sensor_type ≠ "ATMS" := fun h => hs (by simp [h])
  have h3 : sensor_type ≠ "MHS" := fun h => hs (by simp [h])
  have h4 : sensor_type ≠ "IASI" := fun h => hs (by simp [h])
  have h5 : sensor_type ≠ "CrIS" := fun h => hs (by simp [h])
  have hcv : channelVariables sensor_type = none := by
    unfold channelVariables
    simp [h1, h2, h3, h4, h5]
  have herr : (SensorDataset.init catalog dataset_name time prim add sensor_type).1 =
      Except.error ("Unsupported sensor type: " ++ sensor_type) := by
    unfold SensorDataset.init
    rw [hcv]
  exact ⟨herr, fun ds h => by rw [herr] at h; cases h⟩

/-- Witness for C5 at the concrete sensor type string "foo". -/
theorem init_unsupported_sensor_errors_witness :
    (SensorDataset.init exCatalog "d" "t" [] [] "foo").1 =
      Except.error ("Unsupported sensor type: " ++ "foo") ∧
    ∀ ds : SensorDataset,
      (SensorDataset.init exCatalog "d" "t" [] [] "foo").1 ≠ Except.ok ds :=
  init_unsupported_sensor_errors exCatalog "d" "t" [] [] "foo" (by decide)

/-- C6: if a requested primary descriptor column is absent from the
materialized collection, construction raises the missing-column configuration
error (with some missing primary descriptor) before any sample is produced;
the check lives only in the constructor: indexed access never consults the
primary descriptor list. -/
theorem init_missing_primary_errors (catalog : Catalog)
    (dataset_name time : String) (prim add : List String) (sensor_type : String)
    (chans : List String) (hchans : channelVariables sensor_type = some chans)
    (col : String) (hcol : col ∈ prim)
    (hmissing : col ∉ (catalog dataset_name time (prim ++ chans)).columns) :
    (∃ badcol, badcol ∈ prim ∧
      (SensorDataset.init catalog dataset_name time prim add sensor_type).1 =
        Except.error ("The dataset must include a " ++ badcol ++ " column.")) ∧
    (∀ ds : SensorDataset,
      (SensorDataset.init catalog dataset_name time prim add sensor_type).1 ≠
        Except.ok ds) ∧
    (∀ (ds : SensorDataset) (p2 : List String) (index : Nat),
      SensorDataset.getItem { ds with primary_descriptors := p2 } index =
        ds.getItem index) := by
  have hfind : (prim.find?
      (fun c => !((catalog dataset_name time (prim ++ chans)).columns.contains c))).isSome := by
    rw [List.find?_isSome]
    exact ⟨col, hcol, by simpa using hmissing⟩
  obtain ⟨badcol, hfeq⟩ := Option.isSome_iff_exists.mp hfind
  have hbadmem : badcol ∈ prim := List.mem_of_find?_eq_some hfeq
  have herr : (SensorDataset.init catalog dataset_name time prim add sensor_type).1 =
      Except.error ("The dataset must include a " ++ badcol ++ " column.") := by
    unfold SensorDataset.init
    rw [hchans]
    simp only
    rw [hfeq]
  refine ⟨⟨badcol, hbadmem, herr⟩, fun ds h => ?_,
          fun ds p2 index => getItem_ignores_primary ds p2 index⟩
  rw [herr] at h
  cases h

/-- Witness for C6 at a concrete catalog that drops the LAT column. -/
theorem init_missing_primary_errors_witness :
    (∃ badcol, badcol ∈ exPrimary ∧
      (SensorDataset.init noLatCatalog "d" "t" exPrimary [] "MHS").1 =
        Except.error ("The dataset must include a " ++ badcol ++ " column.")) ∧
    (∀ ds : SensorDataset,
      (SensorDataset.init noLatCatalog "d" "t" exPrimary [] "MHS").1 ≠
        Except.ok ds) ∧
    (∀ (ds : SensorDataset) (p2 : List String) (index : Nat),
      SensorDataset.getItem { ds with primary_descriptors := p2 } index =
        ds.getItem index) :=
  init_missing_primary_errors noLatCatalog "d" "t" exPrimary [] "MHS" _ rfl
    "LAT" (by decide) (by decide)

/-- C7: indexed access is deterministic: it leaves the adapter state
unchanged, so invoking it twice with the same index returns equal sample
values. -/
theorem getitem_deterministic (ds : SensorDataset) (index : Nat) :
    ((ds.runGetItem index).2.1.runGetItem index).1 = (ds.runGetItem index).1 := by
  have h : (ds.runGetItem index).2 = (ds, []) := runGetItem_state ds index
  rw [h]

/-- C8: the external catalog query and materialization occur eagerly during
construction (the constructor trace performs the full pipeline: catalog
creation, dataset lookup, manifest load, time/variable selection,
materialization); the length and indexed-access operations leave the adapter
state unchanged and perform no external call (no caching of samples: the
result is recomputed from the held state). -/
theorem init_eager_accessors_pure (catalog : Catalog)
    (dataset_name time : String) (prim add : List String) (sensor_type : String)
    (chans : List String) (hchans : channelVariables sensor_type = some chans) :
    (SensorDataset.init catalog dataset_name time prim add sensor_type).2 =
      [Effect.dataCatalogInit, Effect.catalogLookup dataset_name,
       Effect.loadManifest, Effect.selQuery time (prim ++ chans),
       Effect.loadDataset] ∧
    (∀ ds : SensorDataset, ds.runLen = (ds.len, ds, [])) ∧
    (∀ (ds : SensorDataset) (index : Nat),
      ds.runGetItem index = (ds.getItem index, ds, [])) := by
  refine ⟨init_effects catalog dataset_name time prim add sensor_type chans hchans,
          fun ds => rfl, fun ds index => ?_⟩
  have h := runGetItem_state ds index
  rw [← h]
  rfl

/-- Witness for C8 at a concrete MHS construction. -/
theorem init_eager_accessors_pure_witness :
    (SensorDataset.init exCatalog "d" "t" exPrimary [] "MHS").2 =
      [Effect.dataCatalogInit, Effect.catalogLookup "d", Effect.loadManifest,
       Effect.selQuery "t" (exPrimary ++
         ["TMBR_00001", "TMBR_00002", "TMBR_00003", "TMBR_00004", "TMBR_00005"]),
       Effect.loadDataset] ∧
    (∀ ds : SensorDataset, ds.runLen = (ds.len, ds, [])) ∧
    (∀ (ds : SensorDataset) (index : Nat),
      ds.runGetItem index = (ds.getItem index, ds, [])) :=
  init_eager_accessors_pure exCatalog "d" "t" exPrimary [] "MHS"
    ["TMBR_00001", "TMBR_00002", "TMBR_00003", "TMBR_00004", "TMBR_00005"] rfl

/-- C1 counterexample: with sensor type AMSU and a primary descriptor list
that also names the channel column TMBR_00001, construction succeeds, the
catalog returns exactly the selected columns, yet the sample returned by
indexed access has a metadata vector of length 14, not 15. -/
theorem metadata_length_claim_counterexample :
    (SensorDataset.init exCatalog "amsu-1bamua" "2021-01-01" cxPrimary [] "AMSU").1 =
      Except.ok cxDS ∧
    (∀ n t sel, (exCatalog n t sel).columns = sel) ∧
    cxDS.getItem 0 = some cxSample ∧
    (dictGet cxSample "metadata").map Tensor.shape = some [14] ∧
    (dictGet cxSample "metadata").map Tensor.shape ≠ some [15] :=
  ⟨rfl, fun _ _ _ => rfl, rfl, rfl, by decide⟩

/-- C1 (amended): for every successfully constructed adapter with sensor type
AMSU, ATMS, MHS, IASI, or CrIS, assuming the catalog returns exactly the
selected columns and no primary descriptor names one of the sensor's channel
columns, the metadata vector of every sample returned by indexed access has
length 15, 22, 5, 616, or 431 respectively. -/
theorem metadata_length_matches_channel_count (catalog : Catalog)
    (dataset_name time : String) (prim add : List String) (sensor_type : String)
    (count : Nat)
    (hcount : (sensor_type = "AMSU" ∧ count = 15) ∨
              (sensor_type = "ATMS" ∧ count = 22) ∨
              (sensor_type = "MHS" ∧ count = 5) ∨
              (sensor_type = "IASI" ∧ count = 616) ∨
              (sensor_type = "CrIS" ∧ count = 431))
    (chans : List String) (hchans : channelVariables sensor_type = some chans)
    (hcols : (catalog dataset_name time (prim ++ chans)).columns = prim ++ chans)
    (hdisj : ∀ col ∈ chans, col ∉ prim)
    (ds : SensorDataset)
    (hds : (SensorDataset.init catalog dataset_name time prim add sensor_type).1 =
      Except.ok ds)
    (index : Nat) (sample : Dict)
    (hsample : ds.getItem index = some sample) :
    (dictGet sample "metadata").map Tensor.shape = some [count] := by
  obtain ⟨chans2, hchans2, _, hdseq⟩ :=
    init_ok_destruct catalog dataset_name time prim add sensor_type ds hds
  rw [hchans] at hchans2
  cases hchans2
  subst hdseq
  obtain ⟨row, t, la, lo, md, hrow, ht, hla, hlo, hmd, hs⟩ :=
    (getItem_eq_some_iff _ _ _).mp hsample
  dsimp only at hmd
  rw [hcols, filter_not_mem_append prim chans hdisj] at hmd
  have hlen : md.length = chans.length := mapOption_length hmd
  have hclen : chans.length = count := by
    rcases hcount with ⟨h1, h2⟩ | ⟨h1, h2⟩ | ⟨h1, h2⟩ | ⟨h1, h2⟩ | ⟨h1, h2⟩ <;>
      subst h1 <;> subst h2 <;> simp [channelVariables] at hchans <;>
      subst hchans <;> simp
  rw [hs]
  have hdg : dictGet
      [("timestamp", Tensor.scalar t), ("latitude", Tensor.scalar la),
       ("longitude", Tensor.scalar lo), ("metadata", Tensor.vector md)]
      "metadata" = some (Tensor.vector md) := rfl
  rw [hdg]
  simp [Tensor.vector, hlen, hclen]

/-- Witness for C1 at a concrete AMSU adapter. -/
theorem metadata_length_matches_channel_count_witness :
    (dictGet exSample "metadata").map Tensor.shape = some [15] :=
  metadata_length_matches_channel_count exCatalog "amsu-1bamua" "2021-01-01"
    exPrimary [] "AMSU" 15 (Or.inl ⟨rfl, rfl⟩) _ rfl rfl (by decide) exDS rfl
    0 exSample rfl

/-- C2: for every constructed adapter and every valid row index, the sample
returned by indexed access has exactly the fields timestamp, latitude,
longitude, metadata; the three scalars come from the row's OBS_TIMESTAMP, LAT
and LON values, and the metadata vector packs the row's values at the
selected columns that are not primary descriptors, in column order. -/
theorem getitem_sample_fields_from_row (catalog : Catalog)
    (dataset_name time : String) (prim add : List String) (sensor_type : String)
    (ds : SensorDataset)
    (hds : (SensorDataset.init catalog dataset_name time prim add sensor_type).1 =
      Except.ok ds)
    (index : Nat) (row : Row) (hrow : ds.dataframe.rows[index]? = some row)
    (sample : Dict) (hsample : ds.getItem index = some sample) :
    sample.map Prod.fst = ["timestamp", "latitude", "longitude", "metadata"] ∧
    dictGet sample "timestamp" = (rowGet row "OBS_TIMESTAMP").map Tensor.scalar ∧
    dictGet sample "latitude" = (rowGet row "LAT").map Tensor.scalar ∧
    dictGet sample "longitude" = (rowGet row "LON").map Tensor.scalar ∧
    dictGet sample "metadata" =
      (mapOption (rowGet row)
        (ds.dataframe.columns.filter (fun col => !(prim.contains col)))).map
        Tensor.vector := by
  obtain ⟨chans, hchans, hcont, hdseq⟩ :=
    init_ok_destruct catalog dataset_name time prim add sensor_type ds hds
  obtain ⟨row2, t, la, lo, md, hrow2, ht, hla, hlo, hmd, hs⟩ :=
    (getItem_eq_some_iff _ _ _).mp hsample
  rw [hrow] at hrow2
  cases hrow2
  subst hs
  subst hdseq
  dsimp only at hmd ⊢
  exact ⟨rfl, by rw [ht]; rfl, by rw [hla]; rfl, by rw [hlo]; rfl,
         by rw [hmd]; rfl⟩

/-- Witness for C2 at index 0 of a concrete AMSU adapter. -/
theorem getitem_sample_fields_from_row_witness :
    exSample.map Prod.fst = ["timestamp", "latitude", "longitude", "metadata"] ∧
    dictGet exSample "timestamp" = (rowGet exRow "OBS_TIMESTAMP").map Tensor.scalar ∧
    dictGet exSample "latitude" = (rowGet exRow "LAT").map Tensor.scalar ∧
    dictGet exSample "longitude" = (rowGet exRow "LON").map Tensor.scalar ∧
    dictGet exSample "metadata" =
      (mapOption (rowGet exRow)
        (exDS.dataframe.columns.filter (fun col => !(exPrimary.contains col)))).map
        Tensor.vector :=
  getitem_sample_fields_from_row exCatalog "amsu-1bamua" "2021-01-01" exPrimary
    [] "AMSU" exDS rfl 0 exRow rfl exSample rfl

/-- C9: indexed access reads the hard-coded columns OBS_TIMESTAMP, LAT and
LON, whatever primary descriptor names were configured: (i) the result never
depends on the primary descriptor list; (ii) a successful access forces the
three columns to be present in the accessed row; (iii) concretely, an adapter
whose primary descriptors omit OBS_TIMESTAMP passes construction while every
indexed access fails. -/
theorem getitem_reads_hardcoded_columns :
    (∀ (ds : SensorDataset) (p2 : List String) (index : Nat),
      SensorDataset.getItem { ds with primary_descriptors := p2 } index =
        ds.getItem index) ∧
    (∀ (ds : SensorDataset) (index : Nat) (sample : Dict) (row : Row),
      ds.getItem index = some sample →
      ds.dataframe.rows[index]? = some row →
      (rowGet row "OBS_TIMESTAMP").isSome ∧ (rowGet row "LAT").isSome ∧
        (rowGet row "LON").isSome) ∧
    ((SensorDataset.init exCatalog "mhs" "2021-01-01" ["LAT", "LON"] [] "MHS").1 =
      Except.ok c9DS ∧
     c9DS.len = 1 ∧
     ∀ index, c9DS.getItem index = none) := by
  refine ⟨getItem_ignores_primary, ?_, rfl, rfl, ?_⟩
  · intro ds index sample row hsample hrow
    obtain ⟨row2, t, la, lo, md, hrow2, ht, hla, hlo, _, _⟩ :=
      (getItem_eq_some_iff _ _ _).mp hsample
    rw [hrow] at hrow2
    cases hrow2
    exact ⟨by rw [ht]; rfl, by rw [hla]; rfl, by rw [hlo]; rfl⟩
  · intro index
    cases index with
    | zero => rfl
    | succ n =>
        rw [getItem_eq]
        have h : c9DS.dataframe.rows[n + 1]? = none := by
          apply List.getElem?_eq_none
          have hlen : c9DS.dataframe.rows.length = 1 := rfl
          rw [hlen]
          omega
        rw [h]
        rfl

/-- C10: the batch stacker fails on the empty list (it indexes the first
element), and whenever it returns a record, the record's field names are
exactly the first sample's field names, irrespective of the fields later
samples carry. -/
theorem collate_empty_fails_and_keys_from_first :
    collate_fn [] = none ∧
    ∀ (first : Dict) (rest : List Dict) (r : Dict),
      collate_fn (first :: rest) = some r →
        r.map Prod.fst = first.map Prod.fst := by
  refine ⟨rfl, ?_⟩
  intro first rest r h
  simp only [collate_fn] at h
  have h2 := mapOption_forall2 h
  clear h
  generalize hkeys : first.map Prod.fst = keys at h2 ⊢
  clear hkeys
  induction h2 with
  | nil => rfl
  | cons h1 hrest ih =>
      rename_i a b l1 l2
      have hfst : b.1 = a := by
        split at h1
        · cases h1
        · split at h1
          · cases h1
          · cases h1; rfl
      rw [List.map_cons, hfst, ih]

/-- C3 counterexample: a non-empty batch of two samples sharing the field
name `metadata`, whose vectors have lengths 1 and 2: `torch.stack` raises, so
the stacker returns no record at all. -/
theorem collate_unequal_shapes_counterexample :
    c3BadBatch ≠ [] ∧
    (∀ item ∈ c3BadBatch, item.map Prod.fst = ["metadata"]) ∧
    collate_fn c3BadBatch = none := by decide

/-- C3 (amended): for every non-empty list of samples sharing the same field
names, where additionally every sample's value at each field has the same
tensor shape as the first sample's value (as `torch.stack` requires), the
stacker returns one record whose fields are the first sample's fields; each
field holds the stack of that field's values across the list: leading
dimension equal to the list length, element data concatenated in input list
order. -/
theorem collate_stacks_fields (first : Dict) (rest : List Dict)
    (hkeys : ∀ item ∈ first :: rest, item.map Prod.fst = first.map Prod.fst)
    (hshape : ∀ item ∈ first :: rest, ∀ k ∈ first.map Prod.fst,
      (dictGet item k).map Tensor.shape = (dictGet first k).map Tensor.shape) :
    ∃ r, collate_fn (first :: rest) = some r ∧
      r.map Prod.fst = first.map Prod.fst ∧
      ∀ k ∈ first.map Prod.fst, ∃ vs t,
        mapOption (fun item => dictGet item k) (first :: rest) = some vs ∧
        vs.length = (first :: rest).length ∧
        torchStack vs = some t ∧
        dictGet r k = some t ∧
        t.shape.head? = some (first :: rest).length ∧
        t.data = (vs.map Tensor.data).flatten := by
  have piece : ∀ k ∈ first.map Prod.fst, ∃ vs t,
      mapOption (fun item => dictGet item k) (first :: rest) = some vs ∧
      vs.length = (first :: rest).length ∧
      torchStack vs = some t ∧
      t.shape.head? = some (first :: rest).length ∧
      t.data = (vs.map Tensor.data).flatten := by
    intro k hk
    have hsucc : ∀ item ∈ first :: rest, ∃ v, dictGet item k = some v := by
      intro item hitem
      apply dictGet_of_mem_keys
      rw [hkeys item hitem]
      exact hk
    obtain ⟨vs, hvs⟩ := mapOption_exists hsucc
    have hlen : vs.length = (first :: rest).length := mapOption_length hvs
    have hf2 := mapOption_forall2 hvs
    cases hf2 with
    | cons hv0 hrest2 =>
        rename_i v0 vs2
        have hall : vs2.all (fun u => u.shape == v0.shape) = true := by
          rw [List.all_eq_true]
          intro u hu
          obtain ⟨item, hitem, hdg⟩ := forall2_mem_right hrest2 u hu
          have hsh := hshape item (List.mem_cons_of_mem first hitem) k hk
          rw [hdg, hv0] at hsh
          simp only [Option.map_some'] at hsh
          simpa using hsh
        have hst : torchStack (v0 :: vs2) =
            some ⟨(v0 :: vs2).length :: v0.shape,
                  ((v0 :: vs2).map Tensor.data).flatten⟩ := by
          simp [torchStack, hall]
        refine ⟨v0 :: vs2, _, hvs, hlen, hst, ?_, rfl⟩
        simp [hlen]
  have hFg : ∀ k ∈ first.map Prod.fst,
      (match mapOption (fun item => dictGet item k) (first :: rest) with
       | none => none
       | some vs =>
          match torchStack vs with
          | none => none
          | some t => some (k, t)) =
        some (k, stackedField (first :: rest) k) := by
    intro k hk
    obtain ⟨vs, t, hvs, _, hst, _, _⟩ := piece k hk
    simp [stackedField, hvs, hst]
  have houter : mapOption
      (fun k =>
        match mapOption (fun item => dictGet item k) (first :: rest) with
        | none => none
        | some vs =>
            match torchStack vs with
            | none => none
            | some t => some (k, t))
      (first.map Prod.fst) =
      some ((first.map Prod.fst).map
        (fun k => (k, stackedField (first :: rest) k))) :=
    mapOption_eq_map hFg
  refine ⟨(first.map Prod.fst).map (fun k => (k, stackedField (first :: rest) k)),
          ?_, by simp, ?_⟩
  · simp only [collate_fn]
    exact houter
  · intro k hk
    obtain ⟨vs, t, hvs, hlen, hst, hhead, hdata⟩ := piece k hk
    refine ⟨vs, t, hvs, hlen, hst, ?_, hhead, hdata⟩
    rw [dictGet_map_pair hk]
    simp [stackedField, hvs, hst]

/-- Witness for C3 at a concrete two-sample batch. -/
theorem collate_stacks_fields_witness :
    ∃ r, collate_fn (c3First :: [c3Second]) = some r ∧
      r.map Prod.fst = c3First.map Prod.fst ∧
      ∀ k ∈ c3First.map Prod.fst, ∃ vs t,
        mapOption (fun item => dictGet item k) (c3First :: [c3Second]) = some vs ∧
        vs.length = (c3First :: [c3Second]).length ∧
        torchStack vs = some t ∧
        dictGet r k = some t ∧
        t.shape.head? = some (c3First :: [c3Second]).length ∧
        t.data = (vs.map Tensor.data).flatten :=
  collate_stacks_fields c3First [c3Second] (by decide) (by decide)

end NnjaAI
